import Mathlib

/-!
Verification of the deterministic financial-computation core of the hybrid
investment-research agent: a shallow embedding of the calculator library,
the WACC/terminal-growth/IRR valuation helpers, the delta engine, the metric
builder, the statement normalizer, the Stage-0 gate builder and the verifier
agent, together with theorems settling the specification's claims about them.

Conventions of the embedding:
* Python floats are modelled as exact rationals (`ℚ`); float literals such as
  `1e-12` are modelled as the exact rationals they denote in the source text.
* Python `Optional[float]` is `Option ℚ`; `None` is `none`.
* Python dicts are association lists with dict semantics (first-insertion
  order, last write wins) where the code relies on them.
* `Union[float, str]` metric values are the inductive `PyVal`.
* Python's `abs`, `max`, `min` are `pyAbs`, `pyMax`, `pyMin`, written with
  `if` so that they evaluate by kernel reduction; they agree with the lattice
  operations of `ℚ` (lemmas `pyAbs_eq_abs`, `pyMax_eq_max`, `pyMin_eq_min`).
-/

namespace HybridAgent

/-- A Python value that is either a float or a string
(the `value : Union[float, str]` field of `Metric` in models.py). -/
inductive PyVal where
  | num (q : ℚ)
  | str (s : String)
deriving DecidableEq

/-- Dict lookup on an association list (first matching key; keys are kept
unique by `dictInsert`). -/
def dictGet {κ α : Type} [BEq κ] (m : List (κ × α)) (k : κ) : Option α :=
  (m.find? (fun kv => kv.1 == k)).map (fun kv => kv.2)

/-- Dict update on an association list: overwrite in place when the key is
present (Python dicts keep the first-insertion position), append otherwise. -/
def dictInsert {κ α : Type} [BEq κ] (m : List (κ × α)) (k : κ) (v : α) :
    List (κ × α) :=
  if (m.find? (fun kv => kv.1 == k)).isSome then
    m.map (fun kv => if kv.1 == k then (k, v) else kv)
  else
    m ++ [(k, v)]

/-- Python's `abs` on a float, written so that it evaluates by kernel
reduction (the lattice `|·|` of `ℚ` does not). -/
def pyAbs (q : ℚ) : ℚ := if q < 0 then -q else q

/-- Python's binary `max` (ties resolved to the first argument, which is
value-equal anyway). -/
def pyMax (a b : ℚ) : ℚ := if a < b then b else a

/-- Python's binary `min`. -/
def pyMin (a b : ℚ) : ℚ := if b < a then b else a

namespace calculators

/-- calculators/utils.py `safe_div`: return `numerator / denominator`,
guarding against a missing or near-zero denominator and a missing
numerator, in the source's order of checks. -/
def safe_div (numerator denominator : Option ℚ) : Option ℚ :=
  match denominator with
  | none => none
  | some d =>
    if pyAbs d < 1 / 10 ^ 12 then none
    else
      match numerator with
      | none => none
      | some n => some (n / d)

end calculators

/-- The specification's reading of `safe_div` (claim C2), stated verbatim:
the result is `none` iff the denominator is absent or smaller than `1e-12`
in absolute value, and in every other case — which would include an absent
numerator — the result is exactly `n / d`. -/
def safeDivSpecClaim : Prop :=
  ∀ n d : Option ℚ,
    (calculators.safe_div n d = none ↔
      d = none ∨ ∃ dv, d = some dv ∧ |dv| < 1 / 10 ^ 12) ∧
    (∀ nv dv, n = some nv → d = some dv → ¬ (|dv| < 1 / 10 ^ 12) →
      calculators.safe_div n d = some (nv / dv))

namespace wacc

/-- valuation/wacc.py `WACCInputs` (all fields are floats; the qualitative
adjustment defaults to `0.0`). -/
structure WACCInputs where
  risk_free_rate : ℚ
  equity_risk_premium : ℚ
  beta : ℚ
  cost_of_debt : ℚ
  tax_rate : ℚ
  market_equity_value : ℚ
  market_debt_value : ℚ
  equity_adjustment_bps : ℚ := 0
deriving DecidableEq

/-- valuation/wacc.py `WACCResult`. The Python object also carries an
`inputs` map that is a verbatim echo of the eight input fields; no claim
reads it, so it is not repeated here. The `weights` dict is flattened into
its two entries. -/
structure WACCResult where
  point : ℚ
  lower : ℚ
  upper : ℚ
  cost_of_equity : ℚ
  cost_of_debt_after_tax : ℚ
  equity_weight : ℚ
  debt_weight : ℚ
deriving DecidableEq

/-- `WACCCalculator._cost_of_equity`: CAPM plus the adjustment in basis
points divided by 10,000 — no clamping happens here. -/
def cost_of_equity (rf beta erp adjustment_bps : ℚ) : ℚ :=
  rf + beta * erp + adjustment_bps / 10000

/-- `WACCCalculator._weights`: market-value weights, negative inputs floored
at zero, the total-zero case defined as 100% equity. -/
def weights (equity_value debt_value : ℚ) : ℚ × ℚ :=
  let equity := pyMax equity_value 0
  let debt := pyMax debt_value 0
  let total := equity + debt
  if total = 0 then (1, 0) else (equity / total, debt / total)

/-- `WACCCalculator.derive`. -/
def derive (params : WACCInputs) : WACCResult :=
  let coe := cost_of_equity params.risk_free_rate params.beta
    params.equity_risk_premium params.equity_adjustment_bps
  let cost_of_debt_after_tax := params.cost_of_debt * (1 - params.tax_rate)
  let w := weights params.market_equity_value params.market_debt_value
  let wacc_point := coe * w.1 + cost_of_debt_after_tax * w.2
  { point := wacc_point
    lower := pyMax (wacc_point - 1 / 100) 0
    upper := wacc_point + 1 / 100
    cost_of_equity := coe
    cost_of_debt_after_tax := cost_of_debt_after_tax
    equity_weight := w.1
    debt_weight := w.2 }

end wacc

namespace dcf

/-- calculators/dcf.py `capm_cost_of_equity`: CAPM cost of equity with the
qualitative adjustment clamped to `±max_adjustment_bps` (default 150)
before division by 10,000; `none` when any CAPM input is missing. -/
def capm_cost_of_equity (rf beta erp : Option ℚ)
    (adjustment_bps max_adjustment_bps : ℚ) : Option ℚ :=
  match rf, beta, erp with
  | some rf, some beta, some erp =>
    let bounded := pyMax (-max_adjustment_bps) (pyMin max_adjustment_bps adjustment_bps)
    some (rf + beta * erp + bounded / 10000)
  | _, _, _ => none

/-- One pass of the NPV / derivative accumulation inside
`internal_rate_of_return`: `npv += cf / (1+rate)^period` and, for
`period > 0`, `d_npv -= period * cf / (1+rate)^(period+1)`. -/
def sweep : List ℚ → ℚ → ℕ → ℚ × ℚ → ℚ × ℚ
  | [], _, _, acc => acc
  | cf :: rest, rate, period, (npv, d) =>
    let denom := (1 + rate) ^ period
    let npv' := npv + cf / denom
    let d' := if 0 < period then d - (period : ℚ) * cf / ((1 + rate) ^ (period + 1)) else d
    sweep rest rate (period + 1) (npv', d')

/-- The Newton–Raphson loop of `internal_rate_of_return`, with the residual
iteration budget as fuel: give up (`none`) when the derivative is below
`1e-9` in absolute value or when the budget runs out, answer once the step
shrinks below the tolerance. -/
def irrLoop (cash_flows : List ℚ) (tol : ℚ) : ℕ → ℚ → Option ℚ
  | 0, _ => none
  | fuel + 1, rate =>
    let p := sweep cash_flows rate 0 (0, 0)
    if pyAbs p.2 < 1 / 10 ^ 9 then none
    else
      let new_rate := rate - p.1 / p.2
      if pyAbs (new_rate - rate) < tol then some new_rate
      else irrLoop cash_flows tol fuel new_rate

/-- calculators/dcf.py `internal_rate_of_return` (defaults: guess `0.1`,
tolerance `1e-6`, 100 iterations). -/
def internal_rate_of_return (cash_flows : List ℚ) (guess tol : ℚ)
    (max_iter : ℕ) : Option ℚ :=
  if cash_flows.length < 2 then none
  else irrLoop cash_flows tol max_iter guess

/-- Whether the IRR solver with default parameters answers on `cfs` with a
value within `eps` of `target`. -/
def irrWithinTol (cfs : List ℚ) (target eps : ℚ) : Bool :=
  match internal_rate_of_return cfs (1 / 10) (1 / 10 ^ 6) 100 with
  | none => false
  | some r => if pyAbs (r - target) ≤ eps then true else false

end dcf

namespace service

/-- The terminal-growth anchors resolved by `ValuationBuilder._terminal_inputs`
(metadata overrides with defaults inflation `0.02`, real GDP `0.01`). -/
structure TerminalInputs where
  inflation : ℚ := 1 / 50
  real_gdp : ℚ := 1 / 100
deriving DecidableEq

/-- valuation/service.py `ValuationBuilder._terminal_growth`:
`min(inflation + real_gdp, max(wacc_point - 0.005, 0))`. -/
def terminal_growth (inputs : TerminalInputs) (wacc_point : ℚ) : ℚ :=
  pyMin (inputs.inflation + inputs.real_gdp) (pyMax (wacc_point - 5 / 1000) 0)

end service

namespace delta

/-- The five-field snapshot produced per metric by the delta engine
(delta/delta_engine.py `DeltaEngine._build_record`). -/
structure DeltaRecord where
  current : ℚ
  qoq : ℚ
  yoy : ℚ
  qoq_percent : ℚ
  yoy_percent : ℚ
deriving DecidableEq

/-- `DeltaEngine._build_record`: `none` unless all three periods supply a
value; percent changes via `safe_div` against the signed prior / year-ago
value (`prior if prior != 0 else None`), falling back to `0.0` when
`safe_div` abstains. -/
def build_record (current prior year_ago : Option ℚ) : Option DeltaRecord :=
  match current, prior, year_ago with
  | some c, some p, some y =>
    let qoq := c - p
    let yoy := c - y
    let qoq_percent := calculators.safe_div (some qoq) (if p ≠ 0 then some p else none)
    let yoy_percent := calculators.safe_div (some yoy) (if y ≠ 0 then some y else none)
    some { current := c, qoq := qoq, yoy := yoy,
           qoq_percent := qoq_percent.getD 0, yoy_percent := yoy_percent.getD 0 }
  | _, _, _ => none

end delta

/-- The specification's reading of the delta percent changes (claim C5):
for an included metric the percent changes divide the absolute change by
the absolute value of the prior (year-ago) value and are `0.0` exactly when
that denominator is zero. -/
def deltaPercentSpecClaim : Prop :=
  ∀ (c p y : ℚ) (r : delta.DeltaRecord),
    delta.build_record (some c) (some p) (some y) = some r →
    (r.qoq_percent = if p = 0 then 0 else (c - p) / |p|) ∧
    (r.yoy_percent = if y = 0 then 0 else (c - y) / |y|)

/-- The delta record for Revenue current = 1000, prior = 950,
year-ago = 800 (the specification's own worked example). -/
def rec1000 : delta.DeltaRecord :=
  { current := 1000, qoq := 50, yoy := 200,
    qoq_percent := 50 / 950, yoy_percent := 200 / 800 }

/-- Python's `or` on two optional strings: an absent or empty first operand
yields the second. -/
def pyOrS (a b : Option String) : Option String :=
  match a with
  | some s => if s = "" then b else some s
  | none => b

/-- Python's `or` on two optional floats: an absent or zero first operand
yields the second. -/
def pyOrQ (a b : Option ℚ) : Option ℚ :=
  match a with
  | some x => if x = 0 then b else some x
  | none => b

/-- Whether `needle` occurs as a contiguous run inside `haystack`. -/
def listInfixOf (needle : List Char) : List Char → Bool
  | [] => needle.isEmpty
  | c :: tail => needle.isPrefixOf (c :: tail) || listInfixOf needle tail

/-- Python's `sub in s` substring test. -/
def strContains (s sub : String) : Bool :=
  listInfixOf sub.toList s.toList

/-- A provenance entry as found in the metadata maps (all four recognized
keys optional; `_metric_from_value` fills defaults for missing ones). The
entry's unrecognized extra keys, copied into `Metric.metadata` by the
builder, are not modelled — no claim reads them. -/
structure ProvInfo where
  source_doc_id : Option String := none
  page_or_section : Option String := none
  quote : Option String := none
  url : Option String := none
deriving DecidableEq

/-- The `valuation` sub-object of quarter metadata, restricted to the keys
the verified code reads. A key that is absent or has an unexpected type is
`none`. -/
structure ValuationMeta where
  provenance : Option (List (String × ProvInfo)) := none
  shares_diluted : Option ℚ := none
  net_debt : Option ℚ := none
deriving DecidableEq

/-- The open metadata dict of a quarter, restricted to the keys the
verified code reads. A key that is absent or has an unexpected type
(e.g. a non-numeric `unit_scale`, a non-dict `ttm`) is `none`. -/
structure Metadata where
  unit_scale : Option ℚ := none
  unit_text : Option String := none
  currency : Option String := none
  original_unit_scale : Option ℚ := none
  provenance : Option (List (String × ProvInfo)) := none
  valuation : Option ValuationMeta := none
  business_model : Option String := none
  ttm : Option (List (String × ℚ)) := none
  ttm_period : Option String := none
  period_label : Option String := none
  fiscal_period : Option String := none
deriving DecidableEq

/-- models.py `CompanyQuarter`: the three statement maps are
`Dict[str, float]` (pydantic-coerced), so every leaf is numeric. -/
structure CompanyQuarter where
  ticker : String
  period : String
  income_stmt : List (String × ℚ)
  balance_sheet : List (String × ℚ)
  cash_flow : List (String × ℚ)
  segments : List (String × List (String × ℚ))
  metadata : Metadata
deriving DecidableEq

/-- models.py `Metric` (the free-form `metadata` map is not modelled — no
claim reads it; the pydantic `HttpUrl` is a string here). -/
structure Metric where
  name : String
  value : PyVal
  unit : String
  period : String
  source_doc_id : String
  page_or_section : String
  quote : String
  url : String
  inputs : Option (List String)
deriving DecidableEq

namespace working_capital

/-- calculators/working_capital.py `days_sales_outstanding`:
`AR / Revenue * days` (365 by default at every call site in the builder). -/
def days_sales_outstanding (accounts_receivable revenue : Option ℚ)
    (days_in_period : ℚ) : Option ℚ :=
  (calculators.safe_div accounts_receivable revenue).map
    (fun r => r * days_in_period)

/-- `days_inventory_on_hand`: `Inventory / COGS * days`. -/
def days_inventory_on_hand (inventory cost_of_goods_sold : Option ℚ)
    (days_in_period : ℚ) : Option ℚ :=
  (calculators.safe_div inventory cost_of_goods_sold).map
    (fun r => r * days_in_period)

/-- `days_payables_outstanding`: `AP / COGS * days`. -/
def days_payables_outstanding (accounts_payable cost_of_goods_sold : Option ℚ)
    (days_in_period : ℚ) : Option ℚ :=
  (calculators.safe_div accounts_payable cost_of_goods_sold).map
    (fun r => r * days_in_period)

/-- `cash_conversion_cycle`: `DSO + DIO - DPO`, `none` if any is missing. -/
def cash_conversion_cycle (dso dio dpo : Option ℚ) : Option ℚ :=
  match dso, dio, dpo with
  | some a, some b, some c => some (a + b - c)
  | _, _, _ => none

end working_capital

namespace accruals

/-- calculators/accruals.py `accruals_ratio`:
`(NI - CFO) / avg total assets` through `safe_div`. -/
def accruals_ratio (net_income cash_flow_from_operations
    average_total_assets : Option ℚ) : Option ℚ :=
  match net_income, cash_flow_from_operations with
  | some ni, some cfo => calculators.safe_div (some (ni - cfo)) average_total_assets
  | _, _ => none

end accruals

namespace balance_sheet

/-- calculators/balance_sheet.py `net_debt`: total debt minus cash. -/
def net_debt (total_debt cash_and_equivalents : Option ℚ) : Option ℚ :=
  match total_debt, cash_and_equivalents with
  | some d, some c => some (d - c)
  | _, _ => none

/-- `net_leverage_ratio`: net debt / EBITDA through `safe_div`. -/
def net_leverage_ratio (total_debt cash_and_equivalents ebitda : Option ℚ) :
    Option ℚ :=
  match net_debt total_debt cash_and_equivalents with
  | none => none
  | some leverage => calculators.safe_div (some leverage) ebitda

end balance_sheet

namespace roic

/-- calculators/roic.py `nopat`: `EBIT * (1 - tax rate)`. -/
def nopat (ebit tax_rate : Option ℚ) : Option ℚ :=
  match ebit, tax_rate with
  | some e, some t => some (e * (1 - t))
  | _, _ => none

/-- `invested_capital`: equity + debt - cash - non-operating assets. -/
def invested_capital (total_equity total_debt cash_and_equivalents
    non_operating_assets : Option ℚ) : Option ℚ :=
  match total_equity, total_debt, cash_and_equivalents, non_operating_assets with
  | some e, some d, some c, some n => some (e + d - c - n)
  | _, _, _, _ => none

/-- `roic`: NOPAT / invested capital through `safe_div`. -/
def roic (nopat_value invested_capital_value : Option ℚ) : Option ℚ :=
  calculators.safe_div nopat_value invested_capital_value

end roic

namespace metric_builder

/-- Source id used for synthetic (system-derived) metrics. -/
def SYSTEM_DOC_ID : String := "SYSTEM-DERIVED"

/-- Default url for synthetic metrics. -/
def SYSTEM_URL : String := "https://localhost/system"

/-- Default quote for synthetic metrics. -/
def SYSTEM_QUOTE : String := "Derived from normalized statements"

/-- `MetricBuilder._lookup_provenance`: the metric-name-keyed map under
`metadata.provenance`, then under `metadata.valuation.provenance`; first
match wins; absence yields the empty entry. -/
def lookup_provenance (name : String) (quarter : CompanyQuarter) : ProvInfo :=
  let sources : List (List (String × ProvInfo)) :=
    (match quarter.metadata.provenance with
     | some m => [m]
     | none => []) ++
    (match quarter.metadata.valuation with
     | some v =>
       match v.provenance with
       | some m => [m]
       | none => []
     | none => [])
  match sources.findSome? (fun source => dictGet source name) with
  | some info => info
  | none => {}

/-- `MetricBuilder._metric_from_value`: the single choke point through which
every derived metric passes — `none` becomes the `"ABSTAIN"` sentinel, and
the four provenance fields are always populated (system-derived defaults
when no document backs the metric). -/
def metric_from_value (name : String) (value : Option ℚ) (unit : String)
    (quarter : CompanyQuarter) (inputs : Option (List String)) : Metric :=
  let metric_value : PyVal :=
    match value with
    | none => PyVal.str "ABSTAIN"
    | some v => PyVal.num v
  let source_info := lookup_provenance name quarter
  { name := name
    value := metric_value
    unit := unit
    period := quarter.period
    source_doc_id := source_info.source_doc_id.getD SYSTEM_DOC_ID
    page_or_section := source_info.page_or_section.getD "n/a"
    quote := source_info.quote.getD SYSTEM_QUOTE
    url := source_info.url.getD SYSTEM_URL
    inputs := inputs }

/-- `income_stmt.get("CostOfGoodsSold", income_stmt.get("COGS"))`. -/
def cogs_of (quarter : CompanyQuarter) : Option ℚ :=
  match dictGet quarter.income_stmt "CostOfGoodsSold" with
  | some v => some v
  | none => dictGet quarter.income_stmt "COGS"

/-- `MetricBuilder._build_fcf`: direct FCF, falling back to CFO + CapEx
when both are present. -/
def build_fcf (quarter : CompanyQuarter) : Metric :=
  let fcf :=
    match dictGet quarter.cash_flow "FCF" with
    | some v => some v
    | none =>
      match dictGet quarter.cash_flow "CFO", dictGet quarter.cash_flow "CapEx" with
      | some cfo, some capex => some (cfo + capex)
      | _, _ => none
  metric_from_value "FCF" fcf "USD" quarter (some ["CFO", "CapEx"])

/-- `MetricBuilder._build_dso`. -/
def build_dso (quarter : CompanyQuarter) : Metric :=
  metric_from_value "DSO"
    (working_capital.days_sales_outstanding
      (dictGet quarter.balance_sheet "AccountsReceivable")
      (dictGet quarter.income_stmt "Revenue") 365)
    "days" quarter (some ["AccountsReceivable", "Revenue"])

/-- `MetricBuilder._build_dih`. -/
def build_dih (quarter : CompanyQuarter) : Metric :=
  metric_from_value "DIH"
    (working_capital.days_inventory_on_hand
      (dictGet quarter.balance_sheet "Inventory") (cogs_of quarter) 365)
    "days" quarter (some ["Inventory", "COGS"])

/-- `MetricBuilder._build_dpo`. -/
def build_dpo (quarter : CompanyQuarter) : Metric :=
  metric_from_value "DPO"
    (working_capital.days_payables_outstanding
      (dictGet quarter.balance_sheet "AccountsPayable") (cogs_of quarter) 365)
    "days" quarter (some ["AccountsPayable", "COGS"])

/-- `MetricBuilder._build_ccc`. -/
def build_ccc (quarter : CompanyQuarter) : Metric :=
  let dso := working_capital.days_sales_outstanding
    (dictGet quarter.balance_sheet "AccountsReceivable")
    (dictGet quarter.income_stmt "Revenue") 365
  let dio := working_capital.days_inventory_on_hand
    (dictGet quarter.balance_sheet "Inventory") (cogs_of quarter) 365
  let dpo := working_capital.days_payables_outstanding
    (dictGet quarter.balance_sheet "AccountsPayable") (cogs_of quarter) 365
  metric_from_value "CCC" (working_capital.cash_conversion_cycle dso dio dpo)
    "days" quarter (some ["DSO", "DIH", "DPO"])

/-- `MetricBuilder._build_accruals`. -/
def build_accruals (quarter : CompanyQuarter) : Metric :=
  metric_from_value "Accruals Ratio"
    (accruals.accruals_ratio
      (dictGet quarter.income_stmt "NetIncome")
      (dictGet quarter.cash_flow "CFO")
      (dictGet quarter.balance_sheet "TotalAssets"))
    "ratio" quarter (some ["NetIncome", "CFO", "TotalAssets"])

/-- `MetricBuilder._build_net_leverage` (EBITDA falls back to EBIT). -/
def build_net_leverage (quarter : CompanyQuarter) : Metric :=
  metric_from_value "Net Debt / EBITDA"
    (balance_sheet.net_leverage_ratio
      (dictGet quarter.balance_sheet "TotalDebt")
      (dictGet quarter.balance_sheet "Cash")
      (match dictGet quarter.income_stmt "EBITDA" with
       | some v => some v
       | none => dictGet quarter.income_stmt "EBIT"))
    "x" quarter (some ["TotalDebt", "Cash", "EBITDA"])

/-- `MetricBuilder._build_roic` (tax rate fixed at 21%). -/
def build_roic (quarter : CompanyQuarter) : Metric :=
  let nopat_value := roic.nopat (dictGet quarter.income_stmt "EBIT") (some (21 / 100))
  let invested := roic.invested_capital
    (dictGet quarter.balance_sheet "TotalEquity")
    (dictGet quarter.balance_sheet "TotalDebt")
    (dictGet quarter.balance_sheet "Cash") (some 0)
  let value :=
    match nopat_value with
    | none => none
    | some _ => roic.roic nopat_value invested
  metric_from_value "ROIC" value "ratio" quarter
    (some ["EBIT", "TaxRate", "InvestedCapital"])

/-- `MetricBuilder.build`: the fixed ten-metric list. -/
def build (quarter : CompanyQuarter) : List Metric :=
  [ metric_from_value "Revenue" (dictGet quarter.income_stmt "Revenue")
      "USD" quarter none,
    build_fcf quarter,
    build_dso quarter,
    build_dih quarter,
    build_dpo quarter,
    build_ccc quarter,
    build_accruals quarter,
    build_net_leverage quarter,
    build_roic quarter,
    metric_from_value "NRR" none "ratio" quarter
      (some ["subscription_disclosures"]) ]

end metric_builder

/-- An empty quarter: no statement lines, no metadata. -/
def emptyQuarter : CompanyQuarter :=
  { ticker := "T", period := "2024Q1", income_stmt := [], balance_sheet := [],
    cash_flow := [], segments := [], metadata := {} }

namespace parse

/-- The three statement sections a metric path can point into. -/
inductive Section where
  | income_stmt
  | balance_sheet
  | cash_flow
deriving DecidableEq

/-- `getattr(quarter, section)`. -/
def sectionOf (q : CompanyQuarter) : Section → List (String × ℚ)
  | .income_stmt => q.income_stmt
  | .balance_sheet => q.balance_sheet
  | .cash_flow => q.cash_flow

/-- `Normalizer.FLOW_METRICS`. -/
def FLOW_METRICS : List (Section × String) :=
  [(.income_stmt, "Revenue"), (.income_stmt, "GrossProfit"),
   (.income_stmt, "EBIT"), (.cash_flow, "CFO"), (.cash_flow, "FCF")]

/-- `Normalizer.STOCK_METRICS`. -/
def STOCK_METRICS : List (Section × String) :=
  [(.balance_sheet, "AccountsReceivable"), (.balance_sheet, "Inventory"),
   (.balance_sheet, "TotalAssets"), (.balance_sheet, "Cash"),
   (.balance_sheet, "TotalEquity")]

/-- `Normalizer._apply_scale_dict`: every leaf times the scale. (The
source's `float(value)` coercion with silent skip is vacuous here: the
statement maps are pydantic `Dict[str, float]`, so every value converts.) -/
def apply_scale_dict (data : List (String × ℚ)) (scale : ℚ) :
    List (String × ℚ) :=
  data.map (fun kv => (kv.1, kv.2 * scale))

/-- The free-text half of `Normalizer._resolve_unit_scale`: pattern-match
the lowercased unit hint. -/
def unit_text_scale (quarter : CompanyQuarter) : ℚ :=
  let text := (quarter.metadata.unit_text.getD "").toLower
  if strContains text "billion" then 1000000000
  else if strContains text "million" then 1000000
  else if strContains text "thousand" then 1000
  else 1

/-- `Normalizer._resolve_unit_scale`: an explicit positive numeric
`unit_scale` wins, otherwise the unit text is pattern-matched, otherwise 1. -/
def resolve_unit_scale (quarter : CompanyQuarter) : ℚ :=
  match quarter.metadata.unit_scale with
  | some s => if 0 < s then s else unit_text_scale quarter
  | none => unit_text_scale quarter

/-- The unconditional part of `Normalizer.normalize_quarter` (what the
source computes when `compute_ttm=False`): scale all statements and
segments, record currency, the original scale and the canonical scale 1.0. -/
def normalize_base (quarter : CompanyQuarter) : CompanyQuarter :=
  let scale := resolve_unit_scale quarter
  let currency := quarter.metadata.currency.getD "USD"
  { quarter with
    income_stmt := apply_scale_dict quarter.income_stmt scale
    balance_sheet := apply_scale_dict quarter.balance_sheet scale
    cash_flow := apply_scale_dict quarter.cash_flow scale
    segments := quarter.segments.map (fun kv => (kv.1, apply_scale_dict kv.2 scale))
    metadata := { quarter.metadata with
      currency := some currency
      original_unit_scale := some scale
      unit_scale := some 1 } }

/-- `Normalizer._get_metric`: direct key lookup, then a case-insensitive
scan of the section (first match in insertion order); the `float` coercion
always succeeds on the typed maps. -/
def get_metric (q : CompanyQuarter) (sec : Section) (field : String) :
    Option ℚ :=
  let container := sectionOf q sec
  match dictGet container field with
  | some v => some v
  | none => (container.find? (fun kv => kv.1.toLower == field.toLower)).map
      (fun kv => kv.2)

/-- `Normalizer._compute_ttm`: flows are summed over the current quarter and
the (individually re-normalized, TTM-free) last three history quarters;
stocks carry the current value. The keys of the two metric lists are
disjoint, so appending preserves dict semantics. -/
def compute_ttm (current : CompanyQuarter) (history : List CompanyQuarter) :
    List (String × ℚ) :=
  let normalized_history := (history.drop (history.length - 3)).map normalize_base
  let flows := FLOW_METRICS.foldl (fun acc sf =>
    match get_metric current sf.1 sf.2 with
    | none => acc
    | some cur =>
      let total := normalized_history.foldl (fun t past =>
        match get_metric past sf.1 sf.2 with
        | none => t
        | some v => t + v) cur
      acc ++ [(sf.2, total)]) []
  STOCK_METRICS.foldl (fun acc sf =>
    match get_metric current sf.1 sf.2 with
    | none => acc
    | some v => acc ++ [(sf.2, v)]) flows

/-- First digit of the remaining characters, if any (`(\d)` at the cursor). -/
def digitHead : List Char → Option Char
  | c :: _ => if c.isDigit then some c else none
  | [] => none

/-- `Q?(\d)` with backtracking under `re.I`: an optional `Q`/`q` followed by
a digit, or a digit directly. -/
def qDigit : List Char → Option Char
  | 'Q' :: r => digitHead r
  | 'q' :: r => digitHead r
  | r => digitHead r

/-- `[-]?Q?(\d)`: an optional dash, then `qDigit` (a dash can satisfy
neither alternative of the suffix, so no further backtracking arises). -/
def dashQDigit : List Char → Option Char
  | '-' :: r => qDigit r
  | r => qDigit r

/-- One anchored attempt of the label pattern `(\d{4})(?:[-]?Q?(\d))`. -/
def matchYearQ (l : List Char) : Option (List Char × Char) :=
  match l with
  | a :: b :: c :: d :: r =>
    if a.isDigit && b.isDigit && c.isDigit && d.isDigit then
      (dashQDigit r).map (fun q => ([a, b, c, d], q))
    else none
  | _ => none

/-- `re.search` of the label pattern: leftmost successful anchor wins. -/
def searchYearQ : List Char → Option (List Char × Char)
  | [] => none
  | a :: rest =>
    match matchYearQ (a :: rest) with
    | some res => some res
    | none => searchYearQ rest

/-- `Normalizer._ttm_label`: "TTM-YYYYQn" from the period string when the
pattern matches, else "TTM-<label>" from the metadata fallbacks (Python
string-or: empty strings fall through), else "TTM". -/
def ttm_label (period : String) (metadata : Metadata) : String :=
  match searchYearQ period.toList with
  | some yq => "TTM-" ++ String.mk yq.1 ++ "Q" ++ String.mk [yq.2]
  | none =>
    match pyOrS metadata.period_label (pyOrS metadata.fiscal_period (some period)) with
    | some s => if s = "" then "TTM" else "TTM-" ++ s
    | none => "TTM"

/-- `Normalizer.normalize_quarter` (`compute_ttm` keyword mirrored as a
boolean argument; the history is used only for the TTM sums). -/
def normalize_quarter (quarter : CompanyQuarter) (history : List CompanyQuarter)
    (computeTTMFlag : Bool) : CompanyQuarter :=
  let base := normalize_base quarter
  if computeTTMFlag then
    { base with metadata := { base.metadata with
        ttm := some (compute_ttm base history)
        ttm_period := some (ttm_label base.period base.metadata) } }
  else base

end parse

/-- A quarter already in canonical units (`unit_scale = 1.0`) with a few
numeric leaves, used to witness scale idempotence. -/
def scaledQuarter : CompanyQuarter :=
  { ticker := "T", period := "2024-Q2",
    income_stmt := [("Revenue", 500000), ("EBIT", 120)],
    balance_sheet := [("Cash", 77)],
    cash_flow := [("FCF", -3)],
    segments := [("Segment A", [("Revenue", 250000)])],
    metadata := { unit_scale := some 1 } }

namespace gates

/-- Proleptic-Gregorian civil date (year, month, day) of a day count with
epoch 1970-01-01, after Howard Hinnant's `civil_from_days` (the inverse of
what `datetime.date` arithmetic uses). -/
def civilFromDays (z0 : Int) : Int × Int × Int :=
  let z := z0 + 719468
  let era : Int := (if 0 ≤ z then z else z - 146096) / 146097
  let doe : Int := z - era * 146097
  let yoe : Int := (doe - doe / 1460 + doe / 36524 - doe / 146096) / 365
  let y : Int := yoe + era * 400
  let doy : Int := doe - (365 * yoe + yoe / 4 - yoe / 100)
  let mp : Int := (5 * doy + 2) / 153
  let d : Int := doy - (153 * mp + 2) / 5 + 1
  let m : Int := mp + (if mp < 10 then 3 else -9)
  (y + (if m ≤ 2 then 1 else 0), m, d)

/-- Two-digit zero padding of a month or day. -/
def pad2 (n : Int) : String :=
  if n < 10 then "0" ++ toString n else toString n

/-- `date.isoformat()` of a day count: "YYYY-MM-DD". -/
def isoOfDays (z : Int) : String :=
  let c := civilFromDays z
  toString c.1 ++ "-" ++ pad2 c.2.1 ++ "-" ++ pad2 c.2.2

/-- gates/stage_zero.py `GateRow` (models.py): the `evidence` field defaults
to `None` and the stage-zero builder never sets it, so it is omitted. -/
structure GateRow where
  gate : String
  hard_or_soft : String
  what_it_means : String
  metrics_sources : List String
  pass_rule : String
  result : String
  flip_trigger : Option String := none
deriving DecidableEq

/-- The two gate lists returned by `StageZeroBuilder.build`. -/
structure StageZeroRows where
  hard : List GateRow
  soft : List GateRow
deriving DecidableEq

/-- `StageZeroBuilder._flip_trigger`: the description plus a due date
`today + horizon` in ISO form. `date.today()` is an implicit input of the
source; it is made explicit here as the day count `today`. -/
def flip_trigger (horizon today : Int) (description : String) : String :=
  description ++ " — due " ++ isoOfDays (today + horizon)

/-- `StageZeroBuilder._metric_value`: the metric's value when present and
numeric. -/
def metric_value (metrics : List (String × Metric)) (name : String) :
    Option ℚ :=
  match dictGet metrics name with
  | some m =>
    match m.value with
    | PyVal.num q => some q
    | PyVal.str _ => none
  | none => none

/-- `StageZeroBuilder._source`: "doc | section | url" with empty (falsy)
parts filtered out, "n/a" when the metric is absent. -/
def source_of (m : Option Metric) : String :=
  match m with
  | none => "n/a"
  | some metric =>
    String.intercalate " | "
      (([metric.source_doc_id, metric.page_or_section, metric.url]).filter
        (fun s => s != ""))

/-- Python `v and v > bound` on an optional float: `False` when the value
is absent or zero (falsy), else the comparison. -/
def truthyAndGt (v : Option ℚ) (bound : ℚ) : Bool :=
  match v with
  | none => false
  | some x => if x = 0 then false else decide (bound < x)

/-- `StageZeroBuilder._circle_of_competence` (note the Python `or`: a zero
Revenue metric falls through to the TTM value). -/
def circle_of_competence (metrics : List (String × Metric))
    (ttm : List (String × ℚ)) : GateRow :=
  let revenue := pyOrQ (metric_value metrics "Revenue") (dictGet ttm "Revenue")
  { gate := "Circle of Competence"
    hard_or_soft := "Hard"
    what_it_means := "Disclosures sufficient for analysis"
    metrics_sources := [source_of (dictGet metrics "Revenue")]
    pass_rule := "Revenue > 0 and segment disclosure present"
    result := if truthyAndGt revenue 0 then "Pass" else "Fail" }

/-- `StageZeroBuilder._fraud_controls`. -/
def fraud_controls (metrics : List (String × Metric)) : GateRow :=
  let accruals := metric_value metrics "Accruals Ratio"
  let pass :=
    match accruals with
    | some a => decide (-(1 / 10) ≤ a) && decide (a ≤ 1 / 10)
    | none => false
  { gate := "Fraud/Controls"
    hard_or_soft := "Hard"
    what_it_means := "Accruals within healthy bounds"
    metrics_sources := [source_of (dictGet metrics "Accruals Ratio")]
    pass_rule := "Accruals ratio within +/-10%"
    result := if pass then "Pass" else "Fail" }

/-- `StageZeroBuilder._imminent_solvency`. -/
def imminent_solvency (metrics : List (String × Metric))
    (ttm : List (String × ℚ)) : GateRow :=
  let net_leverage := metric_value metrics "Net Debt / EBITDA"
  let fcf := dictGet ttm "FCF"
  let passes :=
    (match net_leverage with
     | some l => decide (l ≤ 4)
     | none => false) ||
    (match fcf with
     | some f => decide (0 < f)
     | none => false)
  { gate := "Imminent Solvency"
    hard_or_soft := "Hard"
    what_it_means := "Company can service near-term obligations"
    metrics_sources := [source_of (dictGet metrics "Net Debt / EBITDA")]
    pass_rule := "Net leverage <=4x or TTM FCF > 0"
    result := if passes then "Pass" else "Fail" }

/-- `StageZeroBuilder._valuation`. -/
def valuation_gate (metrics : List (String × Metric)) : GateRow :=
  let roic := metric_value metrics "ROIC"
  let wacc_point := metric_value metrics "WACC-point"
  let passes :=
    match roic, wacc_point with
    | some r, some w => decide (w ≤ r)
    | _, _ => false
  { gate := "Valuation"
    hard_or_soft := "Hard"
    what_it_means := "Returns exceed cost of capital"
    metrics_sources := [source_of (dictGet metrics "ROIC"),
      source_of (dictGet metrics "WACC-point")]
    pass_rule := "ROIC >= WACC"
    result := if passes then "Pass" else "Fail" }

/-- `StageZeroBuilder._final_gate`. -/
def final_gate (path : String) : GateRow :=
  { gate := "Final Decision Gate"
    hard_or_soft := "Hard"
    what_it_means := "All hard gates satisfied and business classified as Mature"
    metrics_sources := []
    pass_rule := "Path = Mature and prior hard gates pass"
    result := if path = "Mature" then "Pass" else "Fail" }

/-- `StageZeroBuilder._accounting_sanity`. -/
def accounting_sanity (metrics : List (String × Metric))
    (horizon today : Int) : GateRow :=
  let accruals := metric_value metrics "Accruals Ratio"
  let pass :=
    match accruals with
    | some a => decide (pyAbs a ≤ 15 / 100)
    | none => false
  let result := if pass then "Pass" else "Soft-Pass"
  { gate := "Accounting Sanity"
    hard_or_soft := "Soft"
    what_it_means := "Earnings quality remains solid"
    metrics_sources := [source_of (dictGet metrics "Accruals Ratio")]
    pass_rule := "Accruals ratio within +/-15%"
    result := result
    flip_trigger :=
      if result = "Soft-Pass" then
        some (flip_trigger horizon today "Track accrual trend vs peers")
      else none }

/-- `StageZeroBuilder._balance_sheet_survival` (Python truthiness: zero cash
or zero FCF is falsy). -/
def balance_sheet_survival (metrics : List (String × Metric))
    (ttm : List (String × ℚ)) (horizon today : Int) : GateRow :=
  let pass := truthyAndGt (dictGet ttm "Cash") 0 && truthyAndGt (dictGet ttm "FCF") 0
  let result := if pass then "Pass" else "Soft-Pass"
  { gate := "Balance-sheet Survival"
    hard_or_soft := "Soft"
    what_it_means := "Liquidity runway supports thesis"
    metrics_sources := [source_of (dictGet metrics "FCF")]
    pass_rule := "Positive cash and FCF"
    result := result
    flip_trigger :=
      if result = "Soft-Pass" then
        some (flip_trigger horizon today "Refresh liquidity plan; monitor FCF")
      else none }

/-- `StageZeroBuilder._unit_economics`. -/
def unit_economics (metrics : List (String × Metric))
    (horizon today : Int) : GateRow :=
  let result :=
    if truthyAndGt (metric_value metrics "Take Rate") (1 / 10)
    then "Pass" else "Soft-Pass"
  { gate := "Unit Economics"
    hard_or_soft := "Soft"
    what_it_means := "Contribution margins support scale"
    metrics_sources := [source_of (dictGet metrics "Take Rate")]
    pass_rule := "Take rate >10%"
    result := result
    flip_trigger :=
      if result = "Soft-Pass" then
        some (flip_trigger horizon today "Revisit unit economics vs plan")
      else none }

/-- `StageZeroBuilder._industry`: always Soft-Pass. -/
def industry (horizon today : Int) : GateRow :=
  { gate := "Industry"
    hard_or_soft := "Soft"
    what_it_means := "Industry structure remains attractive"
    metrics_sources := []
    pass_rule := "Industry TAM and competition remain favorable"
    result := "Soft-Pass"
    flip_trigger := some (flip_trigger horizon today "Refresh TAM & competitive notes") }

/-- `StageZeroBuilder._moat`: always Soft-Pass. -/
def moat (metrics : List (String × Metric)) (horizon today : Int) : GateRow :=
  { gate := "Moat"
    hard_or_soft := "Soft"
    what_it_means := "Defensible competitive advantages"
    metrics_sources := [source_of (dictGet metrics "Pricing Power")]
    pass_rule := "Evidence of moat remains intact"
    result := "Soft-Pass"
    flip_trigger := some (flip_trigger horizon today "Review pricing power evidence") }

/-- `StageZeroBuilder._management`: always Soft-Pass. -/
def management (horizon today : Int) : GateRow :=
  { gate := "Management"
    hard_or_soft := "Soft"
    what_it_means := "Execution and governance remain strong"
    metrics_sources := []
    pass_rule := "No new governance concerns"
    result := "Soft-Pass"
    flip_trigger := some (flip_trigger horizon today "Check governance disclosures") }

/-- The name-keyed metric dict built at the top of `StageZeroBuilder.build`. -/
def metric_map_of (metrics : List Metric) : List (String × Metric) :=
  metrics.foldl (fun m metric => dictInsert m metric.name metric) []

/-- `StageZeroBuilder.build` with the builder's flip-trigger horizon
(default 90 days) and the hidden `date.today()` made explicit. -/
def build (metrics : List Metric) (metadata : Metadata) (path : String)
    (horizon today : Int) : StageZeroRows :=
  let metric_map := metric_map_of metrics
  let ttm := metadata.ttm.getD []
  { hard := [circle_of_competence metric_map ttm,
      fraud_controls metric_map,
      imminent_solvency metric_map ttm,
      valuation_gate metric_map,
      final_gate path]
    soft := [accounting_sanity metric_map horizon today,
      balance_sheet_survival metric_map ttm horizon today,
      unit_economics metric_map horizon today,
      industry horizon today,
      moat metric_map horizon today,
      management horizon today] }

/-- A gate row with its flip trigger erased. -/
def erase_flip (r : GateRow) : GateRow := { r with flip_trigger := none }

end gates

namespace verifier

/-- A provenance issue reported by the validator
(`ProvenanceValidator.validate_metrics`). -/
structure Issue where
  metric : String
  reason : String
deriving DecidableEq

/-- One entry of the dossier's `metrics` (or `provenance`) list, restricted
to the keys the verifier reads. -/
structure DossierEntry where
  metric : Option String := none
  name : Option String := none
  value : Option PyVal := none
deriving DecidableEq

/-- One row of the dossier's hard-gate list (`row.get("gate")` /
`row.get("result")`; rows that are not dicts are skipped by the source and
not modelled). -/
structure Stage0Row where
  gate : Option String := none
  result : Option String := none
deriving DecidableEq

/-- The dossier's `reverse_dcf` dict; the two fields the verifier reads,
`none` when absent or non-numeric (the code requires `isinstance
(int,float)` before using either). -/
structure ReverseDCF where
  shares : Option ℚ := none
  net_debt : Option ℚ := none
deriving DecidableEq

/-- The analyst dossier as the verifier reads it. `stage_0` is the
`dossier["stage_0"]["hard"]` row list (`_check_hard_gates` reads nothing
else from it). An absent `reverse_dcf` behaves exactly like an empty dict
in the source (every lookup misses), so `none` covers both the absent and
the non-dict case. -/
structure Dossier where
  provenance_issues : List String := []
  metrics : Option (List DossierEntry) := none
  provenance : List DossierEntry := []
  stage_0 : List Stage0Row := []
  path_reasons : List String := []
  output_0 : String := ""
  reverse_dcf : Option ReverseDCF := none
deriving DecidableEq

/-- models.py `QAResult`. -/
structure QAResult where
  status : String
  reasons : List String
deriving DecidableEq

/-- The five hard gate names (`_HARD_GATES`). The source keeps them in a
Python set whose iteration order is unspecified; the order here is the
order they are written in the source, and only membership in the produced
reasons is meaningful. -/
def HARD_GATES : List String :=
  ["Circle of Competence", "Fraud/Controls", "Imminent Solvency",
   "Valuation", "Final Decision Gate"]

/-- `VerifierAgent._load_dossier_metrics`: `dossier.get("metrics") or
dossier.get("provenance", [])` (an empty metrics list is falsy), keyed by
`entry.get("metric") or entry.get("name")`, skipping falsy names. -/
def load_dossier_metrics (dossier : Dossier) : List (String × DossierEntry) :=
  let entries :=
    match dossier.metrics with
    | some l => if l = [] then dossier.provenance else l
    | none => dossier.provenance
  entries.foldl (fun mapping entry =>
    match pyOrS entry.metric entry.name with
    | some n => if n = "" then mapping else dictInsert mapping n entry
    | none => mapping) []

/-- Whether a metric's value is numeric
(`isinstance(m.value, (int, float))`). -/
def metric_is_num (m : Metric) : Bool :=
  match m.value with
  | PyVal.num _ => true
  | PyVal.str _ => false

/-- The body of the `_recompute_metrics` loop for one sampled metric: a
missing dossier entry, a non-numeric declared value, or a relative
difference above 1% (absolute when the recomputed value is 0) each yield
one reason. Only numeric metrics are sampled, so the string branch is
unreachable and yields nothing. -/
def recompute_one (metric : Metric)
    (dossier_metrics : List (String × DossierEntry)) : List String :=
  match metric.value with
  | PyVal.str _ => []
  | PyVal.num expected =>
    match dictGet dossier_metrics metric.name with
    | none => ["Metric " ++ metric.name ++ " missing from dossier"]
    | some entry =>
      match entry.value with
      | some (PyVal.num value) =>
        let diff := pyAbs (expected - value)
        let ratio := if expected = 0 then diff else diff / pyAbs expected
        if 1 / 100 < ratio then ["Metric mismatch for " ++ metric.name] else []
      | _ => ["Metric " ++ metric.name ++ " value not numeric in dossier"]

/-- The name-keyed dict of freshly recomputed metrics
(`{metric.name: metric for metric in calc_result.metrics}`). -/
def metric_map_of (metrics : List Metric) : List (String × Metric) :=
  metrics.foldl (fun m metric => dictInsert m metric.name metric) []

/-- The verifier's sample: the first `sample_size` numeric metrics of the
recomputed metric dict, in dict order. -/
def sample_of (calc_metrics : List Metric) (sample_size : ℕ) : List Metric :=
  (((metric_map_of calc_metrics).map (fun kv => kv.2)).filter
    metric_is_num).take sample_size

/-- `VerifierAgent._recompute_metrics`. -/
def recompute_metrics (metric_map : List (String × Metric))
    (dossier_metrics : List (String × DossierEntry)) (sample_size : ℕ) :
    List String :=
  (((metric_map.map (fun kv => kv.2)).filter metric_is_num).take
    sample_size).bind (fun m => recompute_one m dossier_metrics)

/-- `VerifierAgent._check_hard_gates`: each of the five hard gates must be
present with result `Pass` or `PASS`; `seen.get(gate)` is `None` both when
the gate row is missing and when its result key is. -/
def check_hard_gates (stage0 : List Stage0Row) : List String :=
  let seen := stage0.foldl
    (fun m row => dictInsert m row.gate row.result)
    ([] : List (Option String × Option String))
  HARD_GATES.bind (fun gate =>
    match (dictGet seen (some gate)).join with
    | none => ["Missing hard gate: " ++ gate]
    | some result =>
      if result == "Pass" || result == "PASS" then []
      else ["Hard gate failed: " ++ gate])

/-- `VerifierAgent._check_path`. -/
def check_path (dossier : Dossier) : List String :=
  if strContains dossier.output_0 "Mature" && !dossier.path_reasons.isEmpty then
    ["Path marked Mature but reasons list not empty"]
  else []

/-- `VerifierAgent._check_valuation_consistency`: shares within 1% of
valuation metadata, net debt within 5% of the metadata value or of the
balance-sheet net debt. -/
def check_valuation_consistency (quarter : CompanyQuarter)
    (dossier : Dossier) : List String :=
  match dossier.reverse_dcf with
  | none => []
  | some reverse =>
    let valuation_meta := quarter.metadata.valuation
    let shares_reasons :=
      match valuation_meta.bind (fun v => v.shares_diluted), reverse.shares with
      | some expected, some reported =>
        if 0 < expected then
          if 1 / 100 < pyAbs (expected - reported) / expected then
            ["Shares in reverse DCF do not match valuation metadata"]
          else []
        else []
      | _, _ => []
    let quarter_net_debt :=
      (dictGet quarter.balance_sheet "TotalDebt").getD 0
        - (dictGet quarter.balance_sheet "Cash").getD 0
    let baseline :=
      (valuation_meta.bind (fun v => v.net_debt)).getD quarter_net_debt
    let nd_reasons :=
      match reverse.net_debt with
      | some reported =>
        if baseline ≠ 0 then
          if 5 / 100 < pyAbs (baseline - reported) / pyAbs baseline then
            ["Net debt in reverse DCF inconsistent with filings"]
          else []
        else []
      | none => []
    shares_reasons ++ nd_reasons

/-- `VerifierAgent._check_business_model_metrics`: subscription-only
metrics are blockers for marketplace / commerce / non-subscription models.
The prohibited names live in a Python set in the source; they are listed
here in source order, so only membership of the reasons is meaningful. -/
def check_business_model_metrics (quarter : CompanyQuarter)
    (metric_map : List (String × Metric))
    (dossier_metrics : List (String × DossierEntry)) : List String :=
  match quarter.metadata.business_model with
  | none => []
  | some bm =>
    if bm = "marketplace" ∨ bm = "commerce" ∨ bm = "non_subscription" then
      (["NRR", "GRR", "Net Revenue Retention"]).bind (fun metric_name =>
        let value_numeric :=
          match gates.metric_value metric_map metric_name with
          | some v => some v
          | none =>
            match dictGet dossier_metrics metric_name with
            | some entry =>
              match entry.value with
              | some (PyVal.num v) => some v
              | _ => none
            | none => none
        match value_numeric with
        | some _ => ["Subscription metric " ++ metric_name
            ++ " not permitted for " ++ bm ++ " model"]
        | none => [])
    else []

/-- The validator-issue filter inside `VerifierAgent.verify`: drop issues
whose metric is system-derived and transient document-load failures. -/
def filter_issues (calc_metrics : List Metric) (issues : List Issue) :
    List Issue :=
  issues.filter (fun issue =>
    !(match calc_metrics.find? (fun m => m.name == issue.metric) with
      | some m => m.source_doc_id == "SYSTEM-DERIVED"
      | none => false) &&
    !strContains issue.reason "unable to load source document")

/-- The reason list assembled by `VerifierAgent.verify`, in the source's
order. The freshly recomputed metrics (the output of
`CalculationService.calculate` on the raw quarter) and the raw validator
output (present only when a document store was supplied) are explicit
inputs of this embedding. -/
def verify_reasons (calc_metrics : List Metric)
    (validator_issues : Option (List Issue)) (quarter : CompanyQuarter)
    (dossier : Dossier) (sample_size : ℕ) : List String :=
  let metric_map := metric_map_of calc_metrics
  let dossier_metrics := load_dossier_metrics dossier
  (match validator_issues with
   | none => []
   | some issues => (filter_issues calc_metrics issues).map
       (fun i => i.metric ++ ": " ++ i.reason))
  ++ dossier.provenance_issues.map (fun i => "Provenance issue: " ++ i)
  ++ recompute_metrics metric_map dossier_metrics sample_size
  ++ check_hard_gates dossier.stage_0
  ++ check_path dossier
  ++ check_valuation_consistency quarter dossier
  ++ check_business_model_metrics quarter metric_map dossier_metrics

/-- `VerifierAgent.verify`: BLOCKER with the collected reasons when any
check failed, PASS with no reasons otherwise. -/
def verify (calc_metrics : List Metric) (validator_issues : Option (List Issue))
    (quarter : CompanyQuarter) (dossier : Dossier) (sample_size : ℕ) :
    QAResult :=
  let reasons := verify_reasons calc_metrics validator_issues quarter dossier
    sample_size
  if reasons = [] then { status := "PASS", reasons := [] }
  else { status := "BLOCKER", reasons := reasons }

end verifier

/-- A freshly recomputed Revenue metric valued 100, for the verifier
witness. -/
def revenueMetric : Metric :=
  { name := "Revenue", value := PyVal.num 100, unit := "USD",
    period := "2024Q1", source_doc_id := "SYSTEM-DERIVED",
    page_or_section := "n/a", quote := "Derived from normalized statements",
    url := "https://localhost/system", inputs := none }

/-- The dossier entry declaring Revenue = 90, for the verifier witness. -/
def revenueEntry : verifier.DossierEntry :=
  { metric := some "Revenue", value := some (PyVal.num 90) }

/-- A dossier declaring Revenue = 90 (10% off the recomputed 100), for the
verifier witness. -/
def mismatchDossier : verifier.Dossier :=
  { metrics := some [revenueEntry] }

/-- The specification's reading of gate determinism (claim C6): two
evaluations of `StageZeroBuilder.build` with identical metrics, metadata
and path inputs produce identical gate rows, including identical
flip-trigger strings — quantified over the evaluation dates because
`date.today()` is an input of the flip-trigger computation the claim's
list of inputs does not mention. -/
def stageZeroDeterminismClaim : Prop :=
  ∀ (metrics : List Metric) (metadata : Metadata) (path : String)
    (horizon d1 d2 : Int),
    gates.build metrics metadata path horizon d1
      = gates.build metrics metadata path horizon d2

end HybridAgent

namespace HybridAgent

/-! ## Theorems -/

section RatComputation

attribute [local semireducible] Rat.add Rat.mul Rat.sub Rat.inv

set_option maxRecDepth 40000

open calculators

theorem pyAbs_eq_abs (q : ℚ) : pyAbs q = |q| := by
  unfold pyAbs
  by_cases h : q < 0
  · rw [if_pos h, abs_of_neg h]
  · rw [if_neg h, abs_of_nonneg (le_of_not_lt h)]

theorem pyMax_eq_max (a b : ℚ) : pyMax a b = max a b := by
  unfold pyMax
  by_cases h : a < b
  · rw [if_pos h, max_eq_right h.le]
  · rw [if_neg h, max_eq_left (le_of_not_lt h)]

theorem pyMin_eq_min (a b : ℚ) : pyMin a b = min a b := by
  unfold pyMin
  by_cases h : b < a
  · rw [if_pos h, min_eq_right h.le]
  · rw [if_neg h, min_eq_left (le_of_not_lt h)]

/-- C2 counterexample: the claim's "None iff denominator absent or tiny"
fails at `n = none`, `d = some 1`: the code returns `none` although the
denominator is present and not tiny. -/
theorem safe_div_spec_false : ¬ safeDivSpecClaim := by
  intro h
  have h1 := (h none (some 1)).1
  have h2 : safe_div none (some 1) = none := by decide
  rcases h1.mp h2 with hd | ⟨dv, hdv, hlt⟩
  · exact Option.noConfusion hd
  · have : dv = 1 := by injection hdv with h'; exact h'.symm
    rw [this] at hlt
    norm_num at hlt

/-- C2 amended: `safe_div n d` is `none` iff the denominator is absent, or
the denominator is smaller than `1e-12` in absolute value, or the numerator
is absent; in every other case it is exactly `n / d`. -/
theorem safe_div_amended (n d : Option ℚ) :
    (safe_div n d = none ↔
      n = none ∨ d = none ∨ ∃ dv, d = some dv ∧ |dv| < 1 / 10 ^ 12) ∧
    (∀ nv dv, n = some nv → d = some dv → ¬ (|dv| < 1 / 10 ^ 12) →
      safe_div n d = some (nv / dv)) := by
  constructor
  · cases d with
    | none => simp [safe_div]
    | some dv =>
      cases n with
      | none =>
        simp only [safe_div, pyAbs_eq_abs]
        by_cases hlt : |dv| < 1 / 10 ^ 12 <;> simp [hlt]
      | some nv =>
        simp only [safe_div, pyAbs_eq_abs]
        by_cases hlt : |dv| < 1 / 10 ^ 12 <;> simp [hlt]
  · intro nv dv hn hd hlt
    subst hn; subst hd
    simp only [safe_div, pyAbs_eq_abs]
    rw [if_neg hlt]

/-- C2 amended, witnessed at `safe_div 6 3 = 6 / 3`. -/
theorem safe_div_amended_witness : safe_div (some 6) (some 3) = some (6 / 3) :=
  (safe_div_amended (some 6) (some 3)).2 6 3 rfl rfl (by norm_num)

/-- C3 counterexample: with all WACC inputs zero the WACC point estimate is
`0`, and the terminal growth produced from the default anchors is
`min(0.03, max(-0.005, 0)) = 0` as well — terminal growth equals WACC
rather than being strictly below it. -/
theorem terminal_growth_not_lt_wacc :
    ¬ (service.terminal_growth ⟨1 / 50, 1 / 100⟩
        (wacc.derive ⟨0, 0, 0, 0, 0, 0, 0, 0⟩).point
      < (wacc.derive ⟨0, 0, 0, 0, 0, 0, 0, 0⟩).point) := by decide

/-- C3 amended: whenever the WACC point estimate is positive, the terminal
growth rate `min(inflation + real_gdp, max(wacc - 0.005, 0))` is strictly
less than the WACC point estimate. -/
theorem terminal_growth_lt_wacc (ti : service.TerminalInputs)
    (p : wacc.WACCInputs) (hw : 0 < (wacc.derive p).point) :
    service.terminal_growth ti (wacc.derive p).point < (wacc.derive p).point := by
  unfold service.terminal_growth
  rw [pyMin_eq_min, pyMax_eq_max]
  refine lt_of_le_of_lt (min_le_right _ _) (max_lt ?_ hw)
  linarith

/-- C3 amended, witnessed at a WACC input set whose point estimate is 1. -/
theorem terminal_growth_lt_wacc_witness :
    0 < (wacc.derive ⟨1, 0, 0, 0, 0, 1, 0, 0⟩).point ∧
    service.terminal_growth ⟨1 / 50, 1 / 100⟩
        (wacc.derive ⟨1, 0, 0, 0, 0, 1, 0, 0⟩).point
      < (wacc.derive ⟨1, 0, 0, 0, 0, 1, 0, 0⟩).point :=
  ⟨by decide, terminal_growth_lt_wacc ⟨1 / 50, 1 / 100⟩ _ (by decide)⟩

/-- C4 counterexample: in `WACCCalculator.derive` the qualitative equity
adjustment is not clamped: an adjustment of 300 bps does not have the same
effect on the cost of equity as 150 bps (it contributes the full
`300 / 10000 = 0.03`). -/
theorem wacc_adjustment_not_clamped :
    (wacc.derive ⟨0, 0, 0, 0, 0, 0, 0, 300⟩).cost_of_equity
      ≠ (wacc.derive ⟨0, 0, 0, 0, 0, 0, 0, 150⟩).cost_of_equity ∧
    (wacc.derive ⟨0, 0, 0, 0, 0, 0, 0, 300⟩).cost_of_equity = 3 / 100 := by
  constructor <;> decide

/-- C4 amended: the ±150 bps clamp lives in the calculator helper
`capm_cost_of_equity`, where an adjustment beyond the bound has the same
effect as the bound itself; `WACCCalculator.derive` instead adds the raw
adjustment divided by 10,000 to risk-free + beta × ERP without clamping. -/
theorem capm_adjustment_clamped :
    (∀ p : wacc.WACCInputs, (wacc.derive p).cost_of_equity
        = p.risk_free_rate + p.beta * p.equity_risk_premium
          + p.equity_adjustment_bps / 10000) ∧
    (∀ rf beta erp : Option ℚ, ∀ bps : ℚ, 150 ≤ bps →
        dcf.capm_cost_of_equity rf beta erp bps 150
          = dcf.capm_cost_of_equity rf beta erp 150 150) ∧
    (∀ rf beta erp : Option ℚ, ∀ bps : ℚ, bps ≤ -150 →
        dcf.capm_cost_of_equity rf beta erp bps 150
          = dcf.capm_cost_of_equity rf beta erp (-150) 150) := by
  refine ⟨fun p => rfl, ?_, ?_⟩
  · intro rf beta erp bps hbps
    have hmin : pyMin 150 bps = 150 := by
      unfold pyMin
      rw [if_neg (not_lt.mpr hbps)]
    have hmin' : pyMin 150 (150 : ℚ) = 150 := by
      unfold pyMin
      rw [if_neg (lt_irrefl _)]
    cases rf <;> cases beta <;> cases erp <;>
      simp [dcf.capm_cost_of_equity, hmin, hmin']
  · intro rf beta erp bps hbps
    have hmin : pyMin 150 bps = bps := by
      unfold pyMin
      rw [if_pos (by linarith)]
    have hmax : pyMax (-150 : ℚ) bps = -150 := by
      unfold pyMax
      rw [if_neg (not_lt.mpr hbps)]
    have hmax' : pyMax (-150 : ℚ) (pyMin 150 (-150 : ℚ)) = -150 := by decide
    cases rf <;> cases beta <;> cases erp <;>
      simp [dcf.capm_cost_of_equity, hmin, hmax, hmax']

/-- C4 amended, witnessed: a 200 bps adjustment acts like 150 bps in
`capm_cost_of_equity`, and `derive` reports the unclamped cost of equity. -/
theorem capm_adjustment_clamped_witness :
    dcf.capm_cost_of_equity (some (1 / 25)) (some (6 / 5)) (some (1 / 20)) 200 150
      = dcf.capm_cost_of_equity (some (1 / 25)) (some (6 / 5)) (some (1 / 20)) 150 150 ∧
    (wacc.derive ⟨0, 0, 0, 0, 0, 0, 0, 300⟩).cost_of_equity
      = 0 + 0 * 0 + 300 / 10000 :=
  ⟨capm_adjustment_clamped.2.1 _ _ _ 200 (by norm_num),
   capm_adjustment_clamped.1 ⟨0, 0, 0, 0, 0, 0, 0, 300⟩⟩

/-- A convex combination of two rationals lies between their minimum and
their maximum. -/
theorem convexCombBetween (a b we wd : ℚ) (h0e : 0 ≤ we) (h0d : 0 ≤ wd)
    (hsum : we + wd = 1) :
    min a b ≤ b * we + a * wd ∧ b * we + a * wd ≤ max a b := by
  have hwd : wd = 1 - we := by linarith
  subst hwd
  constructor
  · have e1 : 0 ≤ (b - min a b) * we :=
      mul_nonneg (sub_nonneg.2 (min_le_right a b)) h0e
    have e2 : 0 ≤ (a - min a b) * (1 - we) :=
      mul_nonneg (sub_nonneg.2 (min_le_left a b)) h0d
    nlinarith [e1, e2]
  · have e1 : 0 ≤ (max a b - b) * we :=
      mul_nonneg (sub_nonneg.2 (le_max_right a b)) h0e
    have e2 : 0 ≤ (max a b - a) * (1 - we) :=
      mul_nonneg (sub_nonneg.2 (le_max_left a b)) h0d
    nlinarith [e1, e2]

/-- The WACC point estimate is definitionally the weight-weighted average of
the cost of equity and the after-tax cost of debt. -/
theorem derive_point_eq (p : wacc.WACCInputs) :
    (wacc.derive p).point
      = (wacc.derive p).cost_of_equity * (wacc.derive p).equity_weight
        + (wacc.derive p).cost_of_debt_after_tax * (wacc.derive p).debt_weight := rfl

/-- C7 counterexample: with zero cost of equity, pre-tax cost of debt 1,
zero tax and equal market values, the weights are (1/2, 1/2) — within [0,1]
and summing to 1 — yet the WACC point 1/2 does not lie in the closed
interval from the after-tax cost of debt (1) to the cost of equity (0). -/
theorem wacc_point_not_in_interval :
    (0 ≤ (wacc.derive ⟨0, 0, 0, 1, 0, 1, 1, 0⟩).equity_weight ∧
     (wacc.derive ⟨0, 0, 0, 1, 0, 1, 1, 0⟩).equity_weight ≤ 1 ∧
     0 ≤ (wacc.derive ⟨0, 0, 0, 1, 0, 1, 1, 0⟩).debt_weight ∧
     (wacc.derive ⟨0, 0, 0, 1, 0, 1, 1, 0⟩).debt_weight ≤ 1 ∧
     (wacc.derive ⟨0, 0, 0, 1, 0, 1, 1, 0⟩).equity_weight
       + (wacc.derive ⟨0, 0, 0, 1, 0, 1, 1, 0⟩).debt_weight = 1) ∧
    ¬ ((wacc.derive ⟨0, 0, 0, 1, 0, 1, 1, 0⟩).cost_of_debt_after_tax
         ≤ (wacc.derive ⟨0, 0, 0, 1, 0, 1, 1, 0⟩).point ∧
       (wacc.derive ⟨0, 0, 0, 1, 0, 1, 1, 0⟩).point
         ≤ (wacc.derive ⟨0, 0, 0, 1, 0, 1, 1, 0⟩).cost_of_equity) := by
  constructor <;> decide

/-- C7 amended: when the derived equity and debt weights lie in [0,1] and
sum to 1, the WACC point estimate lies between the smaller and the larger
of the after-tax cost of debt and the cost of equity (the interval of the
claim, once ordered). -/
theorem wacc_point_between (p : wacc.WACCInputs)
    (h0e : 0 ≤ (wacc.derive p).equity_weight)
    (h1e : (wacc.derive p).equity_weight ≤ 1)
    (h0d : 0 ≤ (wacc.derive p).debt_weight)
    (h1d : (wacc.derive p).debt_weight ≤ 1)
    (hsum : (wacc.derive p).equity_weight + (wacc.derive p).debt_weight = 1) :
    min (wacc.derive p).cost_of_debt_after_tax (wacc.derive p).cost_of_equity
      ≤ (wacc.derive p).point ∧
    (wacc.derive p).point
      ≤ max (wacc.derive p).cost_of_debt_after_tax (wacc.derive p).cost_of_equity := by
  rw [derive_point_eq p]
  exact convexCombBetween _ _ _ _ h0e h0d hsum

/-- C7 amended, witnessed at the counterexample's inputs: the point 1/2
lies between min(1, 0) = 0 and max(1, 0) = 1. -/
theorem wacc_point_between_witness :
    min (wacc.derive ⟨0, 0, 0, 1, 0, 1, 1, 0⟩).cost_of_debt_after_tax
        (wacc.derive ⟨0, 0, 0, 1, 0, 1, 1, 0⟩).cost_of_equity
      ≤ (wacc.derive ⟨0, 0, 0, 1, 0, 1, 1, 0⟩).point ∧
    (wacc.derive ⟨0, 0, 0, 1, 0, 1, 1, 0⟩).point
      ≤ max (wacc.derive ⟨0, 0, 0, 1, 0, 1, 1, 0⟩).cost_of_debt_after_tax
        (wacc.derive ⟨0, 0, 0, 1, 0, 1, 1, 0⟩).cost_of_equity :=
  wacc_point_between ⟨0, 0, 0, 1, 0, 1, 1, 0⟩
    (by decide) (by decide) (by decide) (by decide) (by decide)

/-- C5 counterexample: at current = 2, prior = −1, year-ago = 1 the engine
records a quarter-over-quarter percent change of 3 / (−1) = −3, not the
3 / |−1| = 3 the claim's absolute-value denominator would give. -/
theorem delta_percent_spec_false : ¬ deltaPercentSpecClaim := by
  intro h
  have hrec : delta.build_record (some 2) (some (-1)) (some 1)
      = some ⟨2, 3, 1, -3, 1⟩ := by decide
  have h2 := (h 2 (-1) 1 ⟨2, 3, 1, -3, 1⟩ hrec).1
  rw [if_neg (by norm_num : ¬ ((-1 : ℚ) = 0))] at h2
  rw [show |(-1 : ℚ)| = 1 by norm_num] at h2
  norm_num at h2

/-- C5 amended: for a metric included in a Delta record, the percent
changes divide the (signed) change by the signed prior / year-ago value,
and fall back to 0.0 exactly when that denominator is zero or smaller than
1e-12 in absolute value (the `safe_div` guard). -/
theorem build_record_spec (c p y : ℚ) (r : delta.DeltaRecord)
    (h : delta.build_record (some c) (some p) (some y) = some r) :
    r.current = c ∧ r.qoq = c - p ∧ r.yoy = c - y ∧
    (r.qoq_percent = if |p| < 1 / 10 ^ 12 then 0 else (c - p) / p) ∧
    (r.yoy_percent = if |y| < 1 / 10 ^ 12 then 0 else (c - y) / y) := by
  simp only [delta.build_record, Option.some.injEq] at h
  subst h
  refine ⟨rfl, rfl, rfl, ?_, ?_⟩
  · show (calculators.safe_div (some (c - p)) (if p ≠ 0 then some p else none)).getD 0 = _
    by_cases hp : p = 0
    · subst hp
      rw [if_neg (by simp), if_pos (by norm_num)]
      rfl
    · rw [if_pos hp]
      simp only [calculators.safe_div, pyAbs_eq_abs]
      by_cases hlt : |p| < 1 / 10 ^ 12
      · rw [if_pos hlt, if_pos hlt]; rfl
      · rw [if_neg hlt, if_neg hlt]; rfl
  · show (calculators.safe_div (some (c - y)) (if y ≠ 0 then some y else none)).getD 0 = _
    by_cases hy : y = 0
    · subst hy
      rw [if_neg (by simp), if_pos (by norm_num)]
      rfl
    · rw [if_pos hy]
      simp only [calculators.safe_div, pyAbs_eq_abs]
      by_cases hlt : |y| < 1 / 10 ^ 12
      · rw [if_pos hlt, if_pos hlt]; rfl
      · rw [if_neg hlt, if_neg hlt]; rfl

/-- C5 amended, witnessed at the specification's own example
(current 1000, prior 950, year-ago 800): qoq = 50, yoy = 200. -/
theorem build_record_spec_witness :
    rec1000.current = 1000 ∧ rec1000.qoq = 1000 - 950 ∧
    rec1000.yoy = 1000 - 800 ∧
    (rec1000.qoq_percent
      = if |(950 : ℚ)| < 1 / 10 ^ 12 then 0 else (1000 - 950) / 950) ∧
    (rec1000.yoy_percent
      = if |(800 : ℚ)| < 1 / 10 ^ 12 then 0 else (1000 - 800) / 800) :=
  build_record_spec 1000 950 800 rec1000 (by decide)

/-- C8: the Newton–Raphson IRR solver with default parameters (guess 0.1,
tolerance 1e-6, max 100 iterations) answers within 1e-3 of 0.3631 on the
cash flows [-100, 60, 60, 60], and answers "no solution" on [-100, 0, 0]
(its derivative underflows at the first iteration). -/
theorem irr_examples :
    dcf.irrWithinTol [-100, 60, 60, 60] (3631 / 10000) (1 / 1000) = true ∧
    dcf.internal_rate_of_return [-100, 0, 0] (1 / 10) (1 / 10 ^ 6) 100 = none := by
  constructor <;> decide

/-- Every metric leaving `_metric_from_value` carries either a numeric
value or the ABSTAIN string. -/
theorem metric_from_value_value (name : String) (value : Option ℚ)
    (unit : String) (quarter : CompanyQuarter) (inputs : Option (List String)) :
    (∃ x : ℚ, (metric_builder.metric_from_value name value unit quarter inputs).value
        = PyVal.num x) ∨
    (metric_builder.metric_from_value name value unit quarter inputs).value
        = PyVal.str "ABSTAIN" := by
  cases value with
  | none => exact Or.inr rfl
  | some v => exact Or.inl ⟨v, rfl⟩

/-- C9: every Metric returned by `MetricBuilder.build` has a value that is
either a (finite) rational or the string sentinel "ABSTAIN" — never null;
NaN and infinities do not exist in the exact-rational embedding, and no
calculator in the build path produces them in the source either. -/
theorem build_values_wf (quarter : CompanyQuarter) (m : Metric)
    (hm : m ∈ metric_builder.build quarter) :
    (∃ x : ℚ, m.value = PyVal.num x) ∨ m.value = PyVal.str "ABSTAIN" := by
  simp only [metric_builder.build, metric_builder.build_fcf,
    metric_builder.build_dso, metric_builder.build_dih,
    metric_builder.build_dpo, metric_builder.build_ccc,
    metric_builder.build_accruals, metric_builder.build_net_leverage,
    metric_builder.build_roic, List.mem_cons, List.not_mem_nil, or_false]
    at hm
  rcases hm with h | h | h | h | h | h | h | h | h | h <;>
    (subst h; apply metric_from_value_value)

/-- Scaling a statement map by `1.0` is the identity. -/
theorem apply_scale_dict_one (d : List (String × ℚ)) :
    parse.apply_scale_dict d 1 = d := by
  unfold parse.apply_scale_dict
  simp

/-- An explicit metadata unit scale of `1.0` is what the scale resolution
returns. -/
theorem resolve_unit_scale_one (q : CompanyQuarter)
    (h : q.metadata.unit_scale = some 1) : parse.resolve_unit_scale q = 1 := by
  unfold parse.resolve_unit_scale
  rw [h]
  norm_num

/-- C10: normalization is idempotent on scale — when the metadata unit
scale is already `1.0`, the normalized quarter's numeric leaves in the
income statement, balance sheet, cash flow and every segment equal the
input's, with or without TTM computation and for any history. -/
theorem normalize_scale_one (q : CompanyQuarter) (history : List CompanyQuarter)
    (b : Bool) (h : q.metadata.unit_scale = some 1) :
    (parse.normalize_quarter q history b).income_stmt = q.income_stmt ∧
    (parse.normalize_quarter q history b).balance_sheet = q.balance_sheet ∧
    (parse.normalize_quarter q history b).cash_flow = q.cash_flow ∧
    (parse.normalize_quarter q history b).segments = q.segments := by
  have hs := resolve_unit_scale_one q h
  cases b <;>
    simp [parse.normalize_quarter, parse.normalize_base, hs, apply_scale_dict_one]

/-- C10, witnessed on a concrete canonical-unit quarter. -/
theorem normalize_scale_one_witness :
    (parse.normalize_quarter scaledQuarter [] true).income_stmt
      = scaledQuarter.income_stmt ∧
    (parse.normalize_quarter scaledQuarter [] true).balance_sheet
      = scaledQuarter.balance_sheet ∧
    (parse.normalize_quarter scaledQuarter [] true).cash_flow
      = scaledQuarter.cash_flow ∧
    (parse.normalize_quarter scaledQuarter [] true).segments
      = scaledQuarter.segments :=
  normalize_scale_one scaledQuarter [] true rfl

/-- C6 counterexample: with identical (empty) metrics, metadata and path,
evaluations on consecutive days produce different gate rows — the
Soft-Pass flip-trigger strings embed the evaluation date, which
`date.today()` changes between runs. -/
theorem stage_zero_determinism_false : ¬ stageZeroDeterminismClaim := by
  intro h
  exact absurd (h [] {} "Mature" 90 0 1) (by decide)

/-- C6 amended: `build` is deterministic once the evaluation date is fixed
as an input, and across different dates everything but the Soft-Pass
flip-trigger strings coincides: the hard rows are identical and the soft
rows agree after erasing flip triggers. -/
theorem stage_zero_deterministic_mod_date (metrics : List Metric)
    (metadata : Metadata) (path : String) (horizon d1 d2 : Int) :
    (gates.build metrics metadata path horizon d1).hard
      = (gates.build metrics metadata path horizon d2).hard ∧
    (gates.build metrics metadata path horizon d1).soft.map gates.erase_flip
      = (gates.build metrics metadata path horizon d2).soft.map gates.erase_flip :=
  ⟨rfl, rfl⟩

/-- C1: if a metric in the verifier's sample (the first 5 freshly
recomputed metrics with numeric values) has a numeric declared value in
the dossier whose relative difference from the recomputed value exceeds 1%
(absolute difference when the recomputed value is 0), then `verify`
returns a BLOCKER QAResult whose reasons name that metric. -/
theorem verifier_flags_metric_mismatch
    (calc_metrics : List Metric) (validator_issues : Option (List verifier.Issue))
    (quarter : CompanyQuarter) (dossier : verifier.Dossier)
    (metric : Metric) (expected value : ℚ) (entry : verifier.DossierEntry)
    (hsample : metric ∈ verifier.sample_of calc_metrics 5)
    (hexp : metric.value = PyVal.num expected)
    (hentry : dictGet (verifier.load_dossier_metrics dossier) metric.name
      = some entry)
    (hval : entry.value = some (PyVal.num value))
    (hratio : 1 / 100 < (if expected = 0 then pyAbs (expected - value)
        else pyAbs (expected - value) / pyAbs expected)) :
    (verifier.verify calc_metrics validator_issues quarter dossier 5).status
      = "BLOCKER" ∧
    ("Metric mismatch for " ++ metric.name)
      ∈ (verifier.verify calc_metrics validator_issues quarter dossier 5).reasons := by
  have hone : verifier.recompute_one metric
      (verifier.load_dossier_metrics dossier)
      = ["Metric mismatch for " ++ metric.name] := by
    simp only [verifier.recompute_one, hexp, hentry, hval]
    rw [if_pos hratio]
  have hmem : ("Metric mismatch for " ++ metric.name)
      ∈ verifier.recompute_metrics (verifier.metric_map_of calc_metrics)
          (verifier.load_dossier_metrics dossier) 5 := by
    unfold verifier.recompute_metrics
    refine List.mem_bind.mpr ⟨metric, hsample, ?_⟩
    rw [hone]
    exact List.mem_singleton_self _
  have hmemr : ("Metric mismatch for " ++ metric.name)
      ∈ verifier.verify_reasons calc_metrics validator_issues quarter dossier 5 := by
    simp only [verifier.verify_reasons, List.mem_append]
    tauto
  have hne : verifier.verify_reasons calc_metrics validator_issues quarter
      dossier 5 ≠ [] := by
    intro he
    rw [he] at hmemr
    exact absurd hmemr (List.not_mem_nil _)
  constructor
  · simp only [verifier.verify]
    rw [if_neg hne]
  · simp only [verifier.verify]
    rw [if_neg hne]
    exact hmemr

/-- C1, witnessed: a dossier declaring Revenue = 90 against a recomputed
Revenue of 100 (10% off) is blocked with a reason naming Revenue. -/
theorem verifier_flags_metric_mismatch_witness :
    (verifier.verify [revenueMetric] none emptyQuarter mismatchDossier 5).status
      = "BLOCKER" ∧
    ("Metric mismatch for " ++ revenueMetric.name)
      ∈ (verifier.verify [revenueMetric] none emptyQuarter mismatchDossier 5).reasons :=
  verifier_flags_metric_mismatch [revenueMetric] none emptyQuarter
    mismatchDossier revenueMetric 100 90 revenueEntry
    (by decide) rfl (by decide) rfl (by decide)

/-- C9, witnessed at the empty quarter: its Revenue metric abstains. -/
theorem build_values_wf_witness :
    (∃ x : ℚ, (metric_builder.metric_from_value "Revenue"
        (dictGet emptyQuarter.income_stmt "Revenue") "USD" emptyQuarter none).value
        = PyVal.num x) ∨
    (metric_builder.metric_from_value "Revenue"
        (dictGet emptyQuarter.income_stmt "Revenue") "USD" emptyQuarter none).value
        = PyVal.str "ABSTAIN" :=
  build_values_wf emptyQuarter _ (by decide)

end RatComputation

end HybridAgent
